import Mathlib

/-!
Shallow embedding of the library-management data service
(FastAPI endpoints in src/endpoints/books.py, SQLAlchemy entities in
src/models/library_models.py, pydantic request schemas in
src/schemas/library_schemas.py).

Conventions of the embedding:
* dates and datetimes are modelled as `Int` (a day count); Python `date`
  objects are always truthy, so truthiness tests on a date reduce to a
  presence test on the `Option`;
* the relational store is a record of lists of rows; autoincrement
  primary keys are modelled by `nextBookId` / `nextCopyId` counters;
* an operation returns `Except AppError α × Store`: the second component
  is the store after the operation (unchanged when an error is raised
  before commit);
* `HTTPException(status_code, detail)` is `AppError.http`, a Python
  `ValueError` raised by a SQLAlchemy `@validates` hook is
  `AppError.valueError`, and a pydantic request-validation failure is
  `AppError.schemaError`.
-/

/-- Errors surfaced by the service: `HTTPException` with its status code,
`ValueError` raised by an entity validator, or a pydantic request-schema
rejection. -/
inductive AppError where
  | http (status_code : Nat) (detail : String)
  | valueError (detail : String)
  | schemaError (detail : String)
deriving DecidableEq

/-- Decimal digit characters of a natural number, most significant digit
first: the model of Python `str(n)` for a non-negative integer. -/
def decChars (n : Nat) : List Char :=
  if n = 0 then ['0'] else ((Nat.digits 10 n).map Nat.digitChar).reverse

/-- Model of the Python format spec `{n:03d}`: the decimal rendering of
`n`, left-padded with `'0'` to a minimum width of three characters. -/
def pad3 (n : Nat) : List Char :=
  List.leftpad 3 '0' (decChars n)

/-- Python `str(n)` as a `String`. -/
def decStr (n : Nat) : String := String.mk (decChars n)

/-- Python `f"{n:03d}"` as a `String`. -/
def pad3Str (n : Nat) : String := String.mk (pad3 n)

/-- The inventory number generated in `create_book`:
`f"BOOK-{book_id}-{i:03d}"` (the endpoint passes `i + 1` for the loop
index `i`, so the copies of one book carry sequence numbers 1..N). -/
def inventoryNumber (book_id : Nat) (i : Nat) : String :=
  "BOOK-" ++ decStr book_id ++ "-" ++ pad3Str i

/-- Numeric value of a decimal digit character. -/
def charDigitVal (c : Char) : Nat := c.toNat - 48

/-- Read a zero-padded decimal character sequence back to the number it
denotes. -/
def parseDec (l : List Char) : Nat :=
  Nat.ofDigits 10 ((l.map charDigitVal).reverse)

theorem charDigitVal_digitChar : ∀ d < 10, charDigitVal (Nat.digitChar d) = d := by
  decide

theorem ofDigits_replicate_zero (k : Nat) :
    Nat.ofDigits 10 (List.replicate k 0) = 0 := by
  induction k with
  | zero => simp [Nat.ofDigits]
  | succ k ih => simp [List.replicate_succ, Nat.ofDigits_cons, ih]

theorem parseDec_pad3 (n : Nat) : parseDec (pad3 n) = n := by
  rcases eq_or_ne n 0 with h0 | h0
  · subst h0
    decide
  · have hmap : (decChars n).map charDigitVal = (Nat.digits 10 n).reverse := by
      unfold decChars
      rw [if_neg h0, List.map_reverse, List.map_map]
      congr 1
      have : ∀ d ∈ Nat.digits 10 n, (charDigitVal ∘ Nat.digitChar) d = id d := by
        intro d hd
        have hlt : d < 10 := Nat.digits_lt_base (by norm_num) hd
        simpa using charDigitVal_digitChar d hlt
      rw [List.map_congr_left this, List.map_id]
    unfold parseDec pad3 List.leftpad
    rw [List.map_append, hmap, List.map_replicate]
    have hzero : charDigitVal '0' = 0 := rfl
    rw [hzero, List.reverse_append, List.reverse_reverse, List.reverse_replicate]
    rw [Nat.ofDigits_append, Nat.ofDigits_digits, ofDigits_replicate_zero]
    ring

theorem pad3_injective : Function.Injective pad3 := by
  intro a b h
  have := congrArg parseDec h
  rwa [parseDec_pad3, parseDec_pad3] at this

theorem inventoryNumber_inj_right {bid : Nat} {i j : Nat}
    (h : inventoryNumber bid i = inventoryNumber bid j) : i = j := by
  have hdata := congrArg String.data h
  simp only [inventoryNumber, decStr, pad3Str, String.data_append] at hdata
  exact pad3_injective (List.append_cancel_left hdata)

/-- Row of the `catalogs` table (src/models/library_models.py, class
`Catalog`). Timestamp columns are not present on this table. -/
structure Catalog where
  catalog_id : Nat
  name : String
  description : Option String := none
  parent_id : Option Nat := none
deriving DecidableEq

/-- Row of the `books` table (class `Book`); `created_at` carries the
`datetime.now` default applied at insert. -/
structure Book where
  book_id : Nat
  title : String
  author : String
  year : Option Int := none
  catalog_id : Nat
  description : Option String := none
  isbn : Option String := none
  created_at : Int := 0
deriving DecidableEq

/-- Row of the `book_copies` table (class `BookCopy`); `status` has the
column default value `available`. -/
structure BookCopy where
  copy_id : Nat
  book_id : Nat
  inventory_number : String
  status : String := "available"
  barcode : Option String := none
  acquired_date : Option Int := none
  created_at : Int := 0
deriving DecidableEq

/-- Row of the `readers` table (class `Reader`). -/
structure Reader where
  reader_id : Nat
  full_name : String
  address : Option String := none
  phone : Option String := none
  email : Option String := none
  passport_data : Option String := none
  is_active : Bool := true
deriving DecidableEq

/-- Row of the `issues` table (class `Issue`). -/
structure Issue where
  issue_id : Nat
  copy_id : Nat
  reader_id : Nat
  employee_issued_id : Nat
  employee_received_id : Option Nat := none
  book_id : Nat
  issue_date : Int
  due_date : Int
  return_date : Option Int := none
  is_returned : Bool := false
  is_extended : Bool := false
  notes : Option String := none
deriving DecidableEq

/-- The relational store: one list of rows per table, plus the
autoincrement counters for the two tables the endpoints insert into. -/
structure Store where
  catalogs : List Catalog
  books : List Book
  copies : List BookCopy
  issues : List Issue
  nextBookId : Nat
  nextCopyId : Nat
deriving DecidableEq

/-- The `@validates('year')` hook on `Book`: Python
`if year and (year < 0 or year > datetime.now().year + 1): raise
ValueError(...)`. `None` and `0` are falsy, so the check is skipped for
them; `current_year` stands for `datetime.now().year`. -/
def validate_year (current_year : Nat) (year : Option Int) :
    Except AppError (Option Int) :=
  match year with
  | none => .ok none
  | some y =>
    if y ≠ 0 ∧ (y < 0 ∨ (current_year : Int) + 1 < y) then
      .error (.valueError "Некорректный год издания")
    else
      .ok (some y)

/-- The `@validates('email')` hook on `Reader`: Python
`if email and '@' not in email: raise ValueError(...)`. `None` and the
empty string are falsy, so the check is skipped for them; `'@' in email`
is membership of the character in the string's character sequence. -/
def validate_email (email : Option String) : Except AppError (Option String) :=
  match email with
  | none => .ok none
  | some e =>
    if e ≠ "" ∧ ¬ e.data.contains '@' then
      .error (.valueError "Некорректный email")
    else
      .ok (some e)

/-- The `@validates('due_date')` hook on `Issue`: Python
`if due_date and self.issue_date and due_date < self.issue_date: raise
ValueError(...)`. A date object is always truthy, so the guard reduces
to `self.issue_date` being set at the moment `due_date` is assigned. -/
def validate_due_date (issue_date : Option Int) (due_date : Int) :
    Except AppError Int :=
  match issue_date with
  | none => .ok due_date
  | some d =>
    if due_date < d then
      .error (.valueError "Срок возврата не может быть раньше даты выдачи")
    else
      .ok due_date

/-- An `Issue` ORM object under construction: only the two attributes
the `due_date` validator reads. Attributes start out unset; column
defaults are applied later, at insert. -/
structure IssueObj where
  issue_date : Option Int := none
  due_date : Option Int := none
deriving DecidableEq

/-- Assigning `due_date` on an `Issue` object fires the
`validate_due_date` hook with the object's current `issue_date`. -/
def issueSetDueDate (o : IssueObj) (d : Int) : Except AppError IssueObj :=
  (validate_due_date o.issue_date d).map (fun v => { o with due_date := some v })

/-- Assigning `issue_date` fires no validator (no `@validates` hook is
declared for it). -/
def issueSetIssueDate (o : IssueObj) (d : Int) : IssueObj :=
  { o with issue_date := some d }

/-- The date columns of a persisted `issues` row. -/
structure PersistedIssueDates where
  issue_date : Int
  due_date : Int
deriving DecidableEq

/-- Insert-time behaviour for the two date columns: `issue_date` has the
column default `datetime.now` applied when unset; `due_date` is
`nullable=False`, so an insert without it fails (`none`). -/
def issuePersist (o : IssueObj) (today : Int) : Option PersistedIssueDates :=
  match o.due_date with
  | none => none
  | some dd => some { issue_date := o.issue_date.getD today, due_date := dd }

/-- Python `x or default` for an optional integer: `None` and `0` are
falsy and select the default. -/
def pyOrInt (v : Option Int) (dflt : Int) : Int :=
  match v with
  | none => dflt
  | some n => if n = 0 then dflt else n

/-- The validated payload of the pydantic schema `BookCreate`
(src/schemas/library_schemas.py): the fields of `BookBase` plus
`copies_count`, which is `None` when the request carried an explicit
null. -/
structure BookCreate where
  title : String
  author : String
  year : Option Int := none
  catalog_id : Nat
  description : Option String := none
  copies_count : Option Int := some 1
deriving DecidableEq

/-- A raw `create_book` request body before pydantic validation. For
`copies_count`, `none` means the field was omitted (the default 1
applies) and `some none` means an explicit JSON null (allowed by the
`Optional[int]` annotation, constraints skipped). -/
structure RawBookCreate where
  title : String
  author : String
  year : Option Int := none
  catalog_id : Nat
  description : Option String := none
  copies_count : Option (Option Int) := none
deriving DecidableEq

/-- The `copies_count` field constraint of `BookCreate`:
`Field(1, ge=1, le=100)`. -/
def checkCopiesCount (c : Option (Option Int)) : Except AppError (Option Int) :=
  match c with
  | none => .ok (some 1)
  | some none => .ok none
  | some (some n) =>
    if 1 ≤ n ∧ n ≤ 100 then .ok (some n)
    else .error (.schemaError "copies_count must be between 1 and 100")

/-- The `year` field constraint of `BookBase`: `Field(None, ge=0, le=2100)`. -/
def yearFieldOk (y : Option Int) : Bool :=
  match y with
  | none => true
  | some v => 0 ≤ v && v ≤ 2100

/-- Pydantic validation of a `create_book` request body against
`BookCreate`: `title` max length 500, `author` max length 300, `year` in
[0, 2100] when given, `copies_count` in [1, 100] when given an integer,
defaulting to 1 when omitted. -/
def validateBookCreate (r : RawBookCreate) : Except AppError BookCreate :=
  if 500 < r.title.length then .error (.schemaError "title too long")
  else if 300 < r.author.length then .error (.schemaError "author too long")
  else if ¬ yearFieldOk r.year then .error (.schemaError "year out of range")
  else
    (checkCopiesCount r.copies_count).map (fun c =>
      { title := r.title, author := r.author, year := r.year,
        catalog_id := r.catalog_id, description := r.description,
        copies_count := c })

/-- Copy ids that occur in an `Issue` row with `return_date is null`:
the subquery of step 8 of `create_book`
(`select(Issue.copy_id).where(Issue.return_date.is_(None))`). -/
def openIssueCopyIds (s : Store) : List Nat :=
  (s.issues.filter (fun i => i.return_date.isNone)).map (fun i => i.copy_id)

/-- Step 7 of `create_book`: `count(BookCopy.copy_id)` over the copies
of one book. -/
def countBookCopies (s : Store) (bid : Nat) : Nat :=
  (s.copies.filter (fun c => c.book_id == bid)).length

/-- Step 8 of `create_book`: count of the copies of one book whose
`copy_id` is `not_in` the open-issue copy ids. -/
def available_copies_count (s : Store) (bid : Nat) : Nat :=
  (s.copies.filter (fun c =>
    c.book_id == bid && !(openIssueCopyIds s).contains c.copy_id)).length

/-- The copy rows built by the loop of step 3 of `create_book`: for
`i in range(copies_count)`, a `BookCopy` with inventory number
`f"BOOK-{book_id}-{i + 1:03d}"` and the column defaults for the other
fields. -/
def mkCopies (bid firstId : Nat) (now : Int) (n : Nat) : List BookCopy :=
  (List.range n).map (fun i =>
    { copy_id := firstId + i
      book_id := bid
      inventory_number := inventoryNumber bid (i + 1)
      status := "available"
      barcode := none
      acquired_date := none
      created_at := now })

/-- The JSON object returned by a successful `create_book` (step 9):
the request fields plus `book_id`, `created_at`, the loaded catalog, and
the two computed counts. -/
structure CreateBookResp where
  title : String
  author : String
  year : Option Int
  catalog_id : Nat
  description : Option String
  book_id : Nat
  created_at : Int
  catalog : Catalog
  copies_count : Nat
  available_copies_count : Nat
deriving DecidableEq

/-- The `POST /books/create_book` endpoint body
(src/endpoints/books.py, `create_book`), on an already
schema-validated `BookCreate` payload:
1. look up the catalog; absent → `HTTPException(400, ...)`;
2. build the `Book` row (`Book(**book_dict)` fires the `year`
   validator — a bad year raises `ValueError` before any row is added);
3. build `copies_count or 1` copy rows with generated inventory numbers;
4. commit book and copies;
7./8. recompute total and available copy counts;
9. return the response object. -/
def create_book (current_year : Nat) (now : Int) (s : Store) (d : BookCreate) :
    Except AppError CreateBookResp × Store :=
  match s.catalogs.find? (fun c => c.catalog_id == d.catalog_id) with
  | none =>
    (.error (.http 400 ("Каталог с ID " ++ decStr d.catalog_id ++ " не существует")), s)
  | some catalog =>
    match validate_year current_year d.year with
    | .error e => (.error e, s)
    | .ok _ =>
      let bid := s.nextBookId
      let newBook : Book :=
        { book_id := bid, title := d.title, author := d.author,
          year := d.year, catalog_id := d.catalog_id,
          description := d.description, isbn := none, created_at := now }
      let n := (pyOrInt d.copies_count 1).toNat
      let newCopies := mkCopies bid s.nextCopyId now n
      let s2 : Store :=
        { s with
          books := s.books ++ [newBook]
          copies := s.copies ++ newCopies
          nextBookId := s.nextBookId + 1
          nextCopyId := s.nextCopyId + n }
      (.ok { title := d.title
             author := d.author
             year := d.year
             catalog_id := d.catalog_id
             description := d.description
             book_id := bid
             created_at := now
             catalog := catalog
             copies_count := countBookCopies s2 bid
             available_copies_count := available_copies_count s2 bid }, s2)

/-- The full `create_book` request pipeline: pydantic validation of the
raw body, then the endpoint body. A schema rejection happens before the
endpoint runs, so the store is untouched. -/
def handle_create_book (current_year : Nat) (now : Int) (s : Store)
    (r : RawBookCreate) : Except AppError CreateBookResp × Store :=
  match validateBookCreate r with
  | .error e => (.error e, s)
  | .ok d => create_book current_year now s d

/-- An ORM `Book` object as the `GET` endpoint returns it: the row
itself plus the `catalog` relationship if (and only if) it was eagerly
loaded. -/
structure LoadedBook where
  row : Book
  catalog : Option Catalog
deriving DecidableEq

/-- The `GET /books/{book_id}` endpoint body (src/endpoints/books.py,
`get_book`): select the book by the `unique_id` function parameter;
absent → `HTTPException(404, ...)`. The select carries no
`selectinload`, so the returned object's `catalog` relationship is not
loaded. -/
def get_book (s : Store) (unique_id : Nat) : Except AppError LoadedBook :=
  match s.books.find? (fun b => b.book_id == unique_id) with
  | none =>
    .error (.http 404 ("Книга с ID " ++ decStr unique_id ++ " не найдена"))
  | some b => .ok { row := b, catalog := none }

/-- The route `GET /books/{book_id}` as dispatched: the path declares a
`book_id` segment, but the handler signature binds only the query
parameter `unique_id`, so the path segment reaches no code. -/
def handle_get_book_route (s : Store) (book_id : Nat) (unique_id : Nat) :
    Except AppError LoadedBook :=
  get_book s unique_id

/-- Modelled from the spec: the repository has no `return_copy`
implementation under src/ (no issues endpoint exists); this follows
§4.2 of the spec word for word. `return_copy(issue_id, employee_id,
return_date?)` requires the issue to exist (`NotFoundError`, modelled
as HTTP 404, otherwise) and to be open (`ConflictError`, modelled as
HTTP 409, if `is_returned` already holds); on success it sets
`return_date` (defaulting to now), `is_returned = true`, records the
receiving employee, and sets the copy's status to `available`. -/
def return_copy (s : Store) (issue_id : Nat) (employee_id : Nat)
    (return_date : Option Int) (now : Int) : Except AppError Issue × Store :=
  match s.issues.find? (fun i => i.issue_id == issue_id) with
  | none => (.error (.http 404 "Выдача не найдена"), s)
  | some iss =>
    if iss.is_returned then
      (.error (.http 409 "Книга уже возвращена"), s)
    else
      let rd := return_date.getD now
      let upd := fun (j : Issue) =>
        if j.issue_id == issue_id then
          { j with
            return_date := some rd
            is_returned := true
            employee_received_id := some employee_id }
        else j
      let s2 : Store :=
        { s with
          issues := s.issues.map upd
          copies := s.copies.map (fun c =>
            if c.copy_id == iss.copy_id then { c with status := "available" }
            else c) }
      (.ok (upd iss), s2)

/-- The store after a successful `create_book` that inserted `n` copies. -/
def createBookState (now : Int) (s : Store) (d : BookCreate) (n : Nat) : Store :=
  { s with
    books := s.books ++
      [{ book_id := s.nextBookId
         title := d.title
         author := d.author
         year := d.year
         catalog_id := d.catalog_id
         description := d.description
         isbn := none
         created_at := now }]
    copies := s.copies ++ mkCopies s.nextBookId s.nextCopyId now n
    nextBookId := s.nextBookId + 1
    nextCopyId := s.nextCopyId + n }

theorem create_book_ok_eq (current_year : Nat) (now : Int) (s : Store)
    (d : BookCreate) (cat : Catalog)
    (hcat : s.catalogs.find? (fun c => c.catalog_id == d.catalog_id) = some cat)
    (hyr : validate_year current_year d.year = .ok d.year) :
    create_book current_year now s d =
      (.ok { title := d.title
             author := d.author
             year := d.year
             catalog_id := d.catalog_id
             description := d.description
             book_id := s.nextBookId
             created_at := now
             catalog := cat
             copies_count :=
               countBookCopies
                 (createBookState now s d (pyOrInt d.copies_count 1).toNat)
                 s.nextBookId
             available_copies_count :=
               available_copies_count
                 (createBookState now s d (pyOrInt d.copies_count 1).toNat)
                 s.nextBookId },
       createBookState now s d (pyOrInt d.copies_count 1).toNat) := by
  simp only [create_book, hcat, hyr, createBookState]

theorem mkCopies_length (bid fid : Nat) (now : Int) (n : Nat) :
    (mkCopies bid fid now n).length = n := by
  simp [mkCopies]

theorem mkCopies_map_inventory (bid fid : Nat) (now : Int) (n : Nat) :
    (mkCopies bid fid now n).map (fun c => c.inventory_number)
      = (List.range n).map (fun i => inventoryNumber bid (i + 1)) := by
  simp [mkCopies, List.map_map]

theorem mkCopies_inventory_nodup (bid fid : Nat) (now : Int) (n : Nat) :
    ((mkCopies bid fid now n).map (fun c => c.inventory_number)).Nodup := by
  rw [mkCopies_map_inventory]
  refine List.Nodup.map_on ?_ (List.nodup_range n)
  intro x _ y _ hxy
  have := inventoryNumber_inj_right hxy
  omega

theorem mkCopies_mem {bid fid : Nat} {now : Int} {n : Nat} {c : BookCopy}
    (hc : c ∈ mkCopies bid fid now n) :
    c.book_id = bid ∧ c.status = "available" ∧ fid ≤ c.copy_id := by
  simp only [mkCopies, List.mem_map, List.mem_range] at hc
  obtain ⟨i, _, rfl⟩ := hc
  exact ⟨rfl, rfl, Nat.le_add_right _ _⟩

/-- C1: a successful `create_book` with requested `copies_count = N`
(`N = 1` when the field is omitted, by the `or 1` fallback) creates
exactly one `Book` row and exactly `N` `BookCopy` rows; the i-th copy
(i = 1..N) carries the inventory number `BOOK-{book_id}-{i:03d}`
(zero-padded to three digits), the `N` inventory numbers are pairwise
distinct, and every created copy has status `available`. -/
theorem create_book_copies_correct
    (current_year : Nat) (now : Int) (s : Store) (d : BookCreate)
    (cat : Catalog) (N : Nat)
    (hcat : s.catalogs.find? (fun c => c.catalog_id == d.catalog_id) = some cat)
    (hyr : validate_year current_year d.year = .ok d.year)
    (hN : pyOrInt d.copies_count 1 = (N : Int)) :
    ∃ resp s2, create_book current_year now s d = (.ok resp, s2) ∧
      s2.books.length = s.books.length + 1 ∧
      s2.copies = s.copies ++ mkCopies s.nextBookId s.nextCopyId now N ∧
      (mkCopies s.nextBookId s.nextCopyId now N).length = N ∧
      (mkCopies s.nextBookId s.nextCopyId now N).map (fun c => c.inventory_number)
        = (List.range N).map (fun i => inventoryNumber s.nextBookId (i + 1)) ∧
      ((mkCopies s.nextBookId s.nextCopyId now N).map
        (fun c => c.inventory_number)).Nodup ∧
      ∀ c ∈ mkCopies s.nextBookId s.nextCopyId now N, c.status = "available" := by
  have hn : (pyOrInt d.copies_count 1).toNat = N := by
    rw [hN]
    omega
  have heq := create_book_ok_eq current_year now s d cat hcat hyr
  rw [hn] at heq
  refine ⟨_, _, heq, ?_, ?_, mkCopies_length _ _ _ _,
    mkCopies_map_inventory _ _ _ _, mkCopies_inventory_nodup _ _ _ _,
    fun c hc => (mkCopies_mem hc).2.1⟩
  · simp [createBookState]
  · simp [createBookState]

/-- C1 witness: a concrete successful call with three requested copies. -/
theorem create_book_copies_correct_witness :
    ∃ resp s2,
      create_book 2025 0
        { catalogs := [{ catalog_id := 1, name := "Проза" }], books := [],
          copies := [], issues := [], nextBookId := 1, nextCopyId := 1 }
        { title := "t", author := "a", year := none, catalog_id := 1,
          description := none, copies_count := some 3 } = (.ok resp, s2) ∧
      s2.books.length = 0 + 1 ∧
      s2.copies = [] ++ mkCopies 1 1 0 3 ∧
      (mkCopies 1 1 0 3).length = 3 ∧
      (mkCopies 1 1 0 3).map (fun c => c.inventory_number)
        = (List.range 3).map (fun i => inventoryNumber 1 (i + 1)) ∧
      ((mkCopies 1 1 0 3).map (fun c => c.inventory_number)).Nodup ∧
      ∀ c ∈ mkCopies 1 1 0 3, c.status = "available" :=
  create_book_copies_correct 2025 0
    { catalogs := [{ catalog_id := 1, name := "Проза" }], books := [],
      copies := [], issues := [], nextBookId := 1, nextCopyId := 1 }
    { title := "t", author := "a", year := none, catalog_id := 1,
      description := none, copies_count := some 3 }
    { catalog_id := 1, name := "Проза" } 3 (by rfl) (by rfl) (by rfl)

/-- A store with no rows at all. -/
def emptyStore : Store :=
  { catalogs := [], books := [], copies := [], issues := [],
    nextBookId := 1, nextCopyId := 1 }

/-- A concrete, schema-valid `create_book` payload referencing catalog 1. -/
def bookReq : BookCreate :=
  { title := "Мастер и Маргарита", author := "Булгаков", year := none,
    catalog_id := 1, description := none, copies_count := some 1 }

/-- C2 counterexample: on a store without the referenced catalog,
`create_book` does not fail with the 404 status the repository uses for
its not-found errors — the endpoint raises
`HTTPException(status.HTTP_400_BAD_REQUEST, ...)` instead. -/
theorem create_book_missing_catalog_not_404 :
    ¬ ∃ m, (create_book 2025 0 emptyStore bookReq).1
      = Except.error (AppError.http 404 m) := by
  intro ⟨m, h⟩
  simp [create_book, emptyStore, bookReq] at h

/-- C2 (amended): a `create_book` whose `catalog_id` references no
existing catalog fails with `HTTPException(400, ...)` — a Bad Request,
not the 404 used elsewhere for not-found — and the store is unchanged:
no `Book` row and no `BookCopy` row is persisted. -/
theorem create_book_missing_catalog
    (current_year : Nat) (now : Int) (s : Store) (d : BookCreate)
    (hcat : s.catalogs.find? (fun c => c.catalog_id == d.catalog_id) = none) :
    ∃ m, create_book current_year now s d = (.error (.http 400 m), s) :=
  ⟨"Каталог с ID " ++ decStr d.catalog_id ++ " не существует",
    by simp only [create_book, hcat]⟩

/-- C2 witness: the amended statement at the concrete empty store. -/
theorem create_book_missing_catalog_witness :
    ∃ m, create_book 2025 0 emptyStore bookReq
      = (.error (.http 400 m), emptyStore) :=
  create_book_missing_catalog 2025 0 emptyStore bookReq rfl

/-- The availability count as §4.2 of the spec words it: the count of
copies of the book whose id is not present among the copy ids of Issues
with an open loan (`return_date is null`). Written from the spec's
words, to be compared with `available_copies_count` as translated from
the endpoint's SQL. -/
def availableCopiesCountSpec (s : Store) (bid : Nat) : Nat :=
  s.copies.countP (fun c =>
    decide (c.book_id = bid ∧
      c.copy_id ∉ (s.issues.filter
        (fun i => decide (i.return_date = none))).map (fun i => i.copy_id)))

theorem isNone_eq_decide_eq_none {α : Type} [DecidableEq α] (o : Option α) :
    o.isNone = decide (o = none) := by
  cases o <;> simp

theorem available_copies_count_eq_spec (s : Store) (bid : Nat) :
    available_copies_count s bid = availableCopiesCountSpec s bid := by
  unfold available_copies_count availableCopiesCountSpec openIssueCopyIds
  rw [List.countP_eq_length_filter]
  congr 1
  apply List.filter_congr
  intro c _
  rw [Bool.eq_iff_iff]
  simp [List.contains, isNone_eq_decide_eq_none]

theorem mem_openIssueCopyIds {s : Store} {x : Nat} (hx : x ∈ openIssueCopyIds s) :
    ∃ i ∈ s.issues, i.return_date = none ∧ i.copy_id = x := by
  simp only [openIssueCopyIds, List.mem_map, List.mem_filter,
    Option.isNone_iff_eq_none] at hx
  obtain ⟨i, ⟨hi, hret⟩, hcid⟩ := hx
  exact ⟨i, hi, hret, hcid⟩


/-- C3: `available_copies_count` equals the spec's count (copies of the
book whose id is not among the copy ids of Issues with `return_date`
null), and a successful `create_book` returns that value together with
the total copy count — for a freshly created book both equal the
requested `copies_count`. The well-formedness hypotheses say that the
autoincrement counters dominate the ids already present. -/
theorem create_book_counts_correct
    (current_year : Nat) (now : Int) (s : Store) (d : BookCreate)
    (cat : Catalog) (N : Nat)
    (hcat : s.catalogs.find? (fun c => c.catalog_id == d.catalog_id) = some cat)
    (hyr : validate_year current_year d.year = .ok d.year)
    (hN : pyOrInt d.copies_count 1 = (N : Int))
    (hcopyWf : ∀ c ∈ s.copies, c.book_id < s.nextBookId)
    (hissWf : ∀ i ∈ s.issues, i.copy_id < s.nextCopyId) :
    (∀ bid, available_copies_count s bid = availableCopiesCountSpec s bid) ∧
    ∃ resp s2, create_book current_year now s d = (.ok resp, s2) ∧
      resp.copies_count = N ∧ resp.available_copies_count = N := by
  refine ⟨fun bid => available_copies_count_eq_spec s bid, ?_⟩
  have hn : (pyOrInt d.copies_count 1).toNat = N := by
    rw [hN]
    omega
  have heq := create_book_ok_eq current_year now s d cat hcat hyr
  rw [hn] at heq
  have hold : ∀ c ∈ s.copies, (c.book_id == s.nextBookId) = false := by
    intro c hc
    simp [Nat.ne_of_lt (hcopyWf c hc)]
  have hnew : ∀ c ∈ mkCopies s.nextBookId s.nextCopyId now N,
      (c.book_id == s.nextBookId) = true := by
    intro c hc
    simp [(mkCopies_mem hc).1]
  have hnotmem : ∀ c ∈ mkCopies s.nextBookId s.nextCopyId now N,
      c.copy_id ∉ openIssueCopyIds s := by
    intro c hc hmem
    have hge : s.nextCopyId ≤ c.copy_id := (mkCopies_mem hc).2.2
    obtain ⟨i, hi, _, hcid⟩ := mem_openIssueCopyIds hmem
    have := hissWf i hi
    omega
  have hcopies : (createBookState now s d N).copies
      = s.copies ++ mkCopies s.nextBookId s.nextCopyId now N := rfl
  have hopen : openIssueCopyIds (createBookState now s d N)
      = openIssueCopyIds s := rfl
  refine ⟨_, _, heq, ?_, ?_⟩
  · show countBookCopies (createBookState now s d N) s.nextBookId = N
    unfold countBookCopies
    rw [hcopies]
    simp only [List.filter_append, List.length_append]
    rw [List.filter_eq_nil_iff.mpr (by intro c hc; simp [hold c hc]),
      List.filter_eq_self.mpr hnew]
    simp [mkCopies_length]
  · show available_copies_count (createBookState now s d N) s.nextBookId = N
    unfold available_copies_count
    rw [hcopies, hopen]
    simp only [List.filter_append, List.length_append]
    rw [List.filter_eq_nil_iff.mpr (by intro c hc; simp [hold c hc]),
      List.filter_eq_self.mpr
        (by intro c hc; simp [List.contains, hnew c hc, hnotmem c hc])]
    simp [mkCopies_length]

/-- A store holding one catalog, one book, one copy, and one open issue
on that copy. -/
def seededStore : Store :=
  { catalogs := [{ catalog_id := 1, name := "Проза" }]
    books := [{ book_id := 1, title := "x", author := "y", catalog_id := 1 }]
    copies := [{ copy_id := 1, book_id := 1, inventory_number := "BOOK-1-001" }]
    issues := [{ issue_id := 1, copy_id := 1, reader_id := 1,
                 employee_issued_id := 1, book_id := 1, issue_date := 0,
                 due_date := 14 }]
    nextBookId := 2
    nextCopyId := 2 }

/-- A concrete `create_book` payload asking for two copies in catalog 1. -/
def bookReqTwo : BookCreate :=
  { title := "t", author := "a", year := none, catalog_id := 1,
    description := none, copies_count := some 2 }

/-- C3 witness: the concrete seeded store, requesting two copies. -/
theorem create_book_counts_correct_witness :
    (∀ bid, available_copies_count seededStore bid
      = availableCopiesCountSpec seededStore bid) ∧
    ∃ resp s2, create_book 2025 0 seededStore bookReqTwo = (.ok resp, s2) ∧
      resp.copies_count = 2 ∧ resp.available_copies_count = 2 :=
  create_book_counts_correct 2025 0 seededStore bookReqTwo
    { catalog_id := 1, name := "Проза" } 2
    (by rfl) (by rfl) (by rfl) (by decide) (by decide)

/-- C4 counterexample: an `Issue` whose `due_date` is assigned while
`issue_date` is still unset passes the validator (no `ValidationError`
is raised), and once the insert-time `datetime.now` default fills
`issue_date`, the persisted row has `due_date < issue_date`. So not
every persisted Issue satisfies `due_date ≥ issue_date`. -/
theorem issue_due_before_issue_date_persists :
    (∃ o, issueSetDueDate { } 5 = .ok o ∧
      issuePersist o 10 = some { issue_date := 10, due_date := 5 }) ∧
    ¬ ((10 : Int) ≤ 5) := by
  exact ⟨⟨{ issue_date := none, due_date := some 5 }, rfl, rfl⟩, by decide⟩

/-- C4 (amended): assigning a `due_date` strictly earlier than an
already-set `issue_date` raises `ValidationError` — the validator
errors exactly when `due_date < issue_date` — and an assignment that
succeeds while `issue_date` is set yields `due_date ≥ issue_date`; but
the check is skipped when `issue_date` is still unset (e.g. left to its
insert-time default), so the persisted-row invariant is not enforced in
that case. -/
theorem validate_due_date_spec (d0 due : Int) :
    ((∃ m, validate_due_date (some d0) due = .error (.valueError m)) ↔ due < d0) ∧
    (∀ o : IssueObj, o.issue_date = some d0 →
      ∀ o2, issueSetDueDate o due = .ok o2 →
        d0 ≤ due ∧ o2.due_date = some due) := by
  constructor
  · constructor
    · rintro ⟨m, h⟩
      unfold validate_due_date at h
      by_cases hlt : due < d0
      · exact hlt
      · simp [hlt] at h
    · intro hlt
      exact ⟨"Срок возврата не может быть раньше даты выдачи",
        by simp [validate_due_date, hlt]⟩
  · intro o ho o2 h
    unfold issueSetDueDate validate_due_date at h
    rw [ho] at h
    by_cases hlt : due < d0
    · simp [hlt, Except.map] at h
    · simp [hlt, Except.map] at h
      exact ⟨by omega, by rw [← h]⟩

/-- C4 witness: the amended validator behaviour on a concrete
too-early due date. -/
theorem validate_due_date_spec_witness :
    ∃ m, validate_due_date (some 10) 5 = .error (.valueError m) :=
  (validate_due_date_spec 10 5).1.mpr (by decide)

theorem find?_issue_map_update (l : List Issue) (iid : Nat) (f : Issue → Issue)
    (hf : ∀ j, (f j).issue_id = j.issue_id) :
    (l.map (fun j => if j.issue_id == iid then f j else j)).find?
        (fun j => j.issue_id == iid)
      = (l.find? (fun j => j.issue_id == iid)).map
          (fun j => if j.issue_id == iid then f j else j) := by
  rw [List.find?_map]
  have hp : ((fun j : Issue => j.issue_id == iid) ∘ fun j =>
      if j.issue_id == iid then f j else j) = (fun j => j.issue_id == iid) := by
    funext j
    by_cases hj : (j.issue_id == iid) = true
    · simp [Function.comp, hj, hf]
    · simp [Function.comp, hj]
  rw [hp]

/-- C5: on the spec-modelled `return_copy` — absent issue gives
`NotFoundError` (404) with the store unchanged; an already-returned
issue gives `ConflictError` (409) with the store unchanged; an open
issue succeeds, setting `return_date` (defaulting to now),
`is_returned = true` and the receiving employee, and the issue's copy
is set to status `available`; and a second call on the same issue then
fails with `ConflictError`, so the operation is not idempotent. -/
theorem return_copy_spec (s : Store) (iid eid : Nat) (rd : Option Int)
    (now : Int) :
    (s.issues.find? (fun i => i.issue_id == iid) = none →
      ∃ m, return_copy s iid eid rd now = (.error (.http 404 m), s)) ∧
    (∀ iss, s.issues.find? (fun i => i.issue_id == iid) = some iss →
      iss.is_returned = true →
      ∃ m, return_copy s iid eid rd now = (.error (.http 409 m), s)) ∧
    (∀ iss, s.issues.find? (fun i => i.issue_id == iid) = some iss →
      iss.is_returned = false →
      ∃ iss2 s2, return_copy s iid eid rd now = (.ok iss2, s2) ∧
        iss2.return_date = some (rd.getD now) ∧
        iss2.is_returned = true ∧
        iss2.employee_received_id = some eid ∧
        (∀ c ∈ s2.copies, c.copy_id = iss.copy_id → c.status = "available") ∧
        (∀ eid2 rd2 now2, ∃ m,
          return_copy s2 iid eid2 rd2 now2 = (.error (.http 409 m), s2))) := by
  refine ⟨?_, ?_, ?_⟩
  · intro h
    exact ⟨"Выдача не найдена", by simp [return_copy, h]⟩
  · intro iss h hret
    exact ⟨"Книга уже возвращена", by simp [return_copy, h, hret]⟩
  · intro iss h hret
    have hbeq : (iss.issue_id == iid) = true := by
      simpa using List.find?_some h
    refine ⟨{ iss with
        return_date := some (rd.getD now)
        is_returned := true
        employee_received_id := some eid },
      { s with
        issues := s.issues.map (fun j =>
          if j.issue_id == iid then
            { j with
              return_date := some (rd.getD now)
              is_returned := true
              employee_received_id := some eid }
          else j)
        copies := s.copies.map (fun c =>
          if c.copy_id == iss.copy_id then { c with status := "available" }
          else c) },
      ?_, rfl, rfl, rfl, ?_, ?_⟩
    · simp only [return_copy, h, hret, Bool.false_eq_true, if_false, hbeq, if_true]
    · intro c hc hcid
      simp only [List.mem_map] at hc
      obtain ⟨c0, _, rfl⟩ := hc
      by_cases h2 : (c0.copy_id == iss.copy_id) = true
      · simp [h2]
      · rw [if_neg (by simp [h2])] at hcid ⊢
        simp at h2
        exact absurd hcid h2
    · intro eid2 rd2 now2
      have hfind := find?_issue_map_update s.issues iid
        (fun j => { j with
          return_date := some (rd.getD now)
          is_returned := true
          employee_received_id := some eid })
        (fun j => rfl)
      rw [h] at hfind
      simp only [Option.map] at hfind
      rw [if_pos hbeq] at hfind
      refine ⟨"Книга уже возвращена", ?_⟩
      simp only [return_copy]
      rw [hfind]
      rfl

/-- C5 witness: the seeded store's open issue 1 is returned once
successfully and a second return attempt conflicts; a missing issue id
yields 404 and an already-returned issue yields 409. -/
theorem return_copy_spec_witness :
    ∃ iss2 s2, return_copy seededStore 1 7 none 3 = (.ok iss2, s2) ∧
      iss2.return_date = some ((none : Option Int).getD 3) ∧
      iss2.is_returned = true ∧
      iss2.employee_received_id = some 7 ∧
      (∀ c ∈ s2.copies, c.copy_id
        = ({ issue_id := 1, copy_id := 1, reader_id := 1,
             employee_issued_id := 1, book_id := 1, issue_date := 0,
             due_date := 14 } : Issue).copy_id → c.status = "available") ∧
      (∀ eid2 rd2 now2, ∃ m,
        return_copy s2 1 eid2 rd2 now2 = (.error (.http 409 m), s2)) :=
  (return_copy_spec seededStore 1 7 none 3).2.2
    { issue_id := 1, copy_id := 1, reader_id := 1, employee_issued_id := 1,
      book_id := 1, issue_date := 0, due_date := 14 }
    (by rfl) (by rfl)

/-- C6: for a present year value, the entity validator
`Book.validate_year` raises `ValidationError` if and only if the year
lies outside `[0, current_year + 1]`; and the check fires at entity
assignment time inside `create_book` (on an already schema-validated
payload), independently of the request-schema bounds. -/
theorem validate_year_spec (current_year : Nat) (y : Int) :
    ((∃ m, validate_year current_year (some y) = .error (.valueError m)) ↔
      (y < 0 ∨ (current_year : Int) + 1 < y)) ∧
    (∀ (now : Int) (s : Store) (d : BookCreate) (cat : Catalog),
      s.catalogs.find? (fun c => c.catalog_id == d.catalog_id) = some cat →
      d.year = some y → (y < 0 ∨ (current_year : Int) + 1 < y) →
      ∃ m, create_book current_year now s d = (.error (.valueError m), s)) := by
  constructor
  · constructor
    · rintro ⟨m, h⟩
      simp only [validate_year] at h
      by_cases hc : y ≠ 0 ∧ (y < 0 ∨ (current_year : Int) + 1 < y)
      · exact hc.2
      · rw [if_neg hc] at h
        exact absurd h (by simp)
    · intro hy
      have hne : y ≠ 0 := by rcases hy with h | h <;> omega
      exact ⟨"Некорректный год издания",
        by simp only [validate_year]; rw [if_pos ⟨hne, hy⟩]⟩
  · intro now s d cat hcat hdy hy
    have hne : y ≠ 0 := by rcases hy with h | h <;> omega
    have hval : validate_year current_year d.year
        = .error (.valueError "Некорректный год издания") := by
      rw [hdy]
      simp only [validate_year]
      rw [if_pos ⟨hne, hy⟩]
    exact ⟨"Некорректный год издания", by simp only [create_book, hcat, hval]⟩

/-- C6 witness: year 3000 is rejected by the entity validator in 2025. -/
theorem validate_year_spec_witness :
    ∃ m, validate_year 2025 (some 3000) = .error (.valueError m) :=
  (validate_year_spec 2025 3000).1.mpr (by omega)

/-- C7 counterexample: on a store where book 1 and its catalog both
exist, `get_book` does not return the book together with its catalog —
the select carries no `selectinload`, so the returned object's
`catalog` relationship is `none`. -/
theorem get_book_without_catalog :
    ¬ (∀ (s : Store) (uid : Nat) (b : Book) (cat : Catalog),
      s.books.find? (fun x => x.book_id == uid) = some b →
      s.catalogs.find? (fun c => c.catalog_id == b.catalog_id) = some cat →
      ∃ lb, get_book s uid = .ok lb ∧ lb.catalog = some cat) := by
  intro hclaim
  obtain ⟨lb, hlb, hcat⟩ := hclaim seededStore 1
    { book_id := 1, title := "x", author := "y", catalog_id := 1 }
    { catalog_id := 1, name := "Проза" } rfl rfl
  rw [show get_book seededStore 1
      = .ok { row := { book_id := 1, title := "x", author := "y", catalog_id := 1 }, catalog := none } from rfl] at hlb
  injection hlb with h2
  rw [← h2] at hcat
  exact Option.noConfusion hcat

/-- C7 (amended): `get_book` fails with `HTTPException(404, ...)` when
no book has the given id; otherwise it returns the found book row
alone — the catalog relationship is not loaded, so the catalog is not
part of the result. -/
theorem get_book_spec_amended (s : Store) (uid : Nat) :
    (∀ b, s.books.find? (fun x => x.book_id == uid) = some b →
      get_book s uid = .ok { row := b, catalog := none }) ∧
    (s.books.find? (fun x => x.book_id == uid) = none →
      ∃ m, get_book s uid = .error (.http 404 m)) := by
  constructor
  · intro b hb
    simp [get_book, hb]
  · intro hb
    exact ⟨"Книга с ID " ++ decStr uid ++ " не найдена",
      by simp [get_book, hb]⟩

/-- C7 witness: the amended behaviour on the seeded store: the present
book comes back without a catalog, and an absent id yields a 404. -/
theorem get_book_spec_amended_witness :
    get_book seededStore 1 = .ok
      { row := { book_id := 1, title := "x", author := "y", catalog_id := 1 }, catalog := none } ∧
    ∃ m, get_book seededStore 9 = .error (.http 404 m) :=
  ⟨(get_book_spec_amended seededStore 1).1
      { book_id := 1, title := "x", author := "y", catalog_id := 1 } rfl,
    (get_book_spec_amended seededStore 9).2 rfl⟩

/-- C8 counterexample: the empty string is a present email without an
`'@'`, yet the validator accepts it (`''` is falsy in Python), so the
claimed invariant does not hold for every present email. -/
theorem validate_email_accepts_empty :
    ¬ (∀ e : String, (∃ r, validate_email (some e) = .ok r) →
      e.data.contains '@' = true) := by
  intro hclaim
  have := hclaim "" ⟨some "", rfl⟩
  exact absurd this (by decide)

/-- C8 (amended): the validator rejects a present email exactly when it
is non-empty and lacks `'@'`; hence every accepted present email is
either the empty string or contains `'@'` — the empty string slips
through the Python truthiness guard. -/
theorem validate_email_spec (e : String) :
    ((∃ m, validate_email (some e) = .error (.valueError m)) ↔
      (e ≠ "" ∧ ¬ e.data.contains '@')) ∧
    (∀ r, validate_email (some e) = .ok r →
      r = some e ∧ (e = "" ∨ e.data.contains '@' = true)) := by
  constructor
  · constructor
    · rintro ⟨m, h⟩
      simp only [validate_email] at h
      by_cases hc : e ≠ "" ∧ ¬ e.data.contains '@'
      · exact hc
      · rw [if_neg hc] at h
        exact absurd h (by simp)
    · intro hc
      exact ⟨"Некорректный email", by simp only [validate_email]; rw [if_pos hc]⟩
  · intro r h
    simp only [validate_email] at h
    by_cases hc : e ≠ "" ∧ ¬ e.data.contains '@'
    · rw [if_pos hc] at h
      exact absurd h (by simp)
    · rw [if_neg hc] at h
      injection h with h2
      refine ⟨h2.symm, ?_⟩
      by_cases he : e = ""
      · exact Or.inl he
      · by_cases hcont : e.data.contains '@' = true
        · exact Or.inr hcont
        · exact absurd ⟨he, hcont⟩ hc

/-- C8 witness: a non-empty address without `'@'` is rejected. -/
theorem validate_email_spec_witness :
    ∃ m, validate_email (some "abc") = .error (.valueError m) :=
  (validate_email_spec "abc").1.mpr (by decide)

theorem validateBookCreate_ok_copies (r : RawBookCreate) (d : BookCreate)
    (hd : validateBookCreate r = .ok d) :
    checkCopiesCount r.copies_count = .ok d.copies_count := by
  unfold validateBookCreate at hd
  by_cases h1 : 500 < r.title.length
  · rw [if_pos h1] at hd
    exact absurd hd (by simp)
  rw [if_neg h1] at hd
  by_cases h2 : 300 < r.author.length
  · rw [if_pos h2] at hd
    exact absurd hd (by simp)
  rw [if_neg h2] at hd
  by_cases h3 : yearFieldOk r.year = true
  · rw [if_neg (by simp [h3])] at hd
    cases hcc : checkCopiesCount r.copies_count with
    | error e =>
      rw [hcc] at hd
      exact absurd hd (by simp [Except.map])
    | ok c =>
      rw [hcc] at hd
      simp only [Except.map, Except.ok.injEq] at hd
      rw [← hd]
  · rw [if_pos (by simp [h3])] at hd
    exact absurd hd (by simp)

/-- C9: the request schema accepts an integer `copies_count` only in
[1, 100] (an omitted field defaults to 1); a request whose
`copies_count` integer lies below 1 or above 100 is rejected by
pydantic validation before the endpoint body runs, so no row is
created and the store is unchanged. -/
theorem copies_count_schema_spec (current_year : Nat) (now : Int)
    (s : Store) (r : RawBookCreate) :
    (∀ n : Int, r.copies_count = some (some n) → (n < 1 ∨ 100 < n) →
      ∃ m, handle_create_book current_year now s r
        = (.error (.schemaError m), s)) ∧
    (∀ d, validateBookCreate r = .ok d →
      (∀ n : Int, r.copies_count = some (some n) → 1 ≤ n ∧ n ≤ 100) ∧
      (r.copies_count = none → d.copies_count = some 1)) := by
  constructor
  · intro n hc hbad
    have hval : ∃ m, validateBookCreate r = .error (.schemaError m) := by
      unfold validateBookCreate
      by_cases h1 : 500 < r.title.length
      · rw [if_pos h1]
        exact ⟨"title too long", rfl⟩
      rw [if_neg h1]
      by_cases h2 : 300 < r.author.length
      · rw [if_pos h2]
        exact ⟨"author too long", rfl⟩
      rw [if_neg h2]
      by_cases h3 : yearFieldOk r.year = true
      · rw [if_neg (by simp [h3]), hc]
        simp only [checkCopiesCount]
        rw [if_neg (by omega : ¬(1 ≤ n ∧ n ≤ 100))]
        exact ⟨"copies_count must be between 1 and 100", rfl⟩
      · rw [if_pos (by simp [h3])]
        exact ⟨"year out of range", rfl⟩
    obtain ⟨m, hm⟩ := hval
    exact ⟨m, by simp only [handle_create_book, hm]⟩
  · intro d hd
    constructor
    · intro n hc
      have hcc := validateBookCreate_ok_copies r d hd
      rw [hc] at hcc
      simp only [checkCopiesCount] at hcc
      by_cases h4 : 1 ≤ n ∧ n ≤ 100
      · exact h4
      · rw [if_neg h4] at hcc
        exact absurd hcc (by simp)
    · intro hnone
      have hcc := validateBookCreate_ok_copies r d hd
      rw [hnone] at hcc
      simp only [checkCopiesCount] at hcc
      injection hcc with h5
      exact h5.symm

/-- A raw request asking for 101 copies, above the schema's upper bound. -/
def rawReq101 : RawBookCreate :=
  { title := "t", author := "a", year := none, catalog_id := 1,
    description := none, copies_count := some (some 101) }

/-- C9 witness: 101 copies is rejected at the schema, store unchanged. -/
theorem copies_count_schema_spec_witness :
    ∃ m, handle_create_book 2025 0 seededStore rawReq101
      = (.error (.schemaError m), seededStore) :=
  (copies_count_schema_spec 2025 0 seededStore rawReq101).1 101 rfl (by omega)

/-- C10: the `GET /books/{book_id}` handler selects the book solely by
its `unique_id` function parameter; the `book_id` path segment of the
route is bound by no parameter of the handler, so its value never
influences the result. -/
theorem get_book_route_ignores_path (s : Store) (p1 p2 uid : Nat) :
    handle_get_book_route s p1 uid = handle_get_book_route s p2 uid ∧
    handle_get_book_route s p1 uid = get_book s uid :=
  ⟨rfl, rfl⟩
